import Mathlib

/-!
Shallow embedding of the snake-game core (board model, Snake entity, Food
lifecycle, collision detection, and the Game controller) translated from the
JavaScript source.  Randomness (Math.random) is modelled by explicit oracle
inputs: a stream of attempted positions for food placement and a boolean roll
for the special-food upgrade check.  Wall-clock time (Date.now) is an explicit
natural-number input.  The setTimeout callback created by the speed-boost
effect is modelled as an explicit pending-timer list on the game state, with a
separate step that fires a timer.
-/

/-- Board configuration: the source reads gameConfig.board.columns and
gameConfig.board.rows (600/20 = 30 each). -/
structure Config where
  columns : Nat
  rows : Nat
deriving DecidableEq

/-- The concrete configuration of the source: a 30 by 30 board. -/
def gameConfig : Config := ⟨30, 30⟩

/-- gameConfig.snake.initialLength. -/
def snakeInitialLength : Nat := 3

/-- gameConfig.snake.speed (milliseconds per move). -/
def snakeSpeed : Nat := 150

/-- gameConfig.food.points. -/
def foodPoints : Nat := 10

/-- gameConfig.food.size. -/
def foodSize : Nat := 18

/-- gameConfig.food.color. -/
def foodColor : String := "#f39c12"

/-- Grid position; utils.createPosition floors its arguments, which are
always integers on the paths modelled here, so coordinates are plain Int. -/
structure Pos where
  x : Int
  y : Int
deriving DecidableEq

/-- utils.positionsEqual. -/
def positionsEqual (p q : Pos) : Bool :=
  (p.x == q.x) && (p.y == q.y)

/-- One of the four DIRECTIONS constants. -/
inductive Direction where
  | up
  | down
  | left
  | right
deriving DecidableEq

/-- x component of a DIRECTIONS constant. -/
def Direction.dx : Direction → Int
  | .up => 0
  | .down => 0
  | .left => -1
  | .right => 1

/-- y component of a DIRECTIONS constant. -/
def Direction.dy : Direction → Int
  | .up => -1
  | .down => 1
  | .left => 0
  | .right => 0

/-- utils.getOppositeDirection. -/
def getOppositeDirection : Direction → Direction
  | .up => .down
  | .down => .up
  | .left => .right
  | .right => .left

/-- utils.areDirectionsOpposite: getOppositeDirection(dir1) === dir2. -/
def areDirectionsOpposite (d1 d2 : Direction) : Bool :=
  decide (getOppositeDirection d1 = d2)

/-- A position built from loop counters (utils.createPosition on naturals). -/
def natPos (x y : Nat) : Pos :=
  ⟨(x : Int), (y : Int)⟩

/-- utils.getRandomPosition, with the two Math.random draws of one call
supplied as a pair of naturals; flooring random()*n is modelled as mod n,
which matches the uniform range [0, n). -/
def getRandomPosition (cfg : Config) (r : Nat × Nat) : Pos :=
  natPos (r.1 % cfg.columns) (r.2 % cfg.rows)

/-- All board cells in the row-major order of Food.findAvailablePosition
(outer loop over y, inner loop over x). -/
def boardPositions (cfg : Config) : List Pos :=
  (List.range cfg.rows).flatMap
    (fun y => (List.range cfg.columns).map (fun x => natPos x y))

/-- The Snake entity state. -/
structure Snake where
  body : List Pos
  direction : Direction
  nextDirection : Direction
  growing : Bool
  length : Nat
deriving DecidableEq

/-- Snake.reset: initial body of snakeInitialLength segments extending left
from the board center, moving right. -/
def Snake.init (cfg : Config) : Snake :=
  let startX : Int := ((cfg.columns / 2 : Nat) : Int)
  let startY : Int := ((cfg.rows / 2 : Nat) : Int)
  { body := (List.range snakeInitialLength).map (fun i => ⟨startX - (i : Int), startY⟩)
    direction := Direction.right
    nextDirection := Direction.right
    growing := false
    length := snakeInitialLength }

/-- Snake.getHead: this.body[0].  The body is never empty in any state the
game produces; the default is irrelevant on those states. -/
def Snake.getHead (s : Snake) : Pos :=
  s.body.headD ⟨0, 0⟩

/-- Snake.changeDirection: rejected when the requested direction is the
opposite of the currently applied one; otherwise queues it. -/
def Snake.changeDirection (s : Snake) (d : Direction) : Bool × Snake :=
  if areDirectionsOpposite d s.direction then (false, s)
  else (true, { s with nextDirection := d })

/-- Snake.move: applies the queued direction, prepends the new head, and
drops the tail unless growing. -/
def Snake.move (s : Snake) : Snake :=
  let dir := s.nextDirection
  let head := s.getHead
  let newHead : Pos := ⟨head.x + dir.dx, head.y + dir.dy⟩
  if s.growing then
    { s with direction := dir, body := newHead :: s.body, growing := false,
             length := s.length + 1 }
  else
    { s with direction := dir, body := (newHead :: s.body).dropLast }

/-- Snake.grow: sets the growing flag. -/
def Snake.grow (s : Snake) : Snake :=
  { s with growing := true }

/-- Snake.getBodyWithoutHead: this.body.slice(1). -/
def Snake.getBodyWithoutHead (s : Snake) : List Pos :=
  s.body.drop 1

/-- Snake.checkSelfCollision: whether the head equals any other body
segment (indices 1 and up). -/
def Snake.checkSelfCollision (s : Snake) : Bool :=
  (s.body.drop 1).any (fun seg => positionsEqual s.getHead seg)

/-- Snake.isPositionOccupied: membership of a position in the body. -/
def Snake.isPositionOccupied (s : Snake) (p : Pos) : Bool :=
  s.body.any (fun seg => positionsEqual seg p)

/-- Food variant tag ('normal' | 'bonus' | 'mega' | 'speed'). -/
inductive FoodType where
  | normal
  | bonus
  | mega
  | speed
deriving DecidableEq

/-- The specialFood descriptor; the source only ever creates
(type 'speed', duration 5000), so only the duration is recorded. -/
structure SpecialFood where
  duration : Nat
deriving DecidableEq

/-- The Food entity state. -/
structure Food where
  position : Option Pos
  value : Nat
  active : Bool
  type : FoodType
  color : String
  size : Nat
  spawnTime : Nat
  specialFood : Option SpecialFood
deriving DecidableEq

/-- The Food constructor. -/
def Food.init : Food :=
  { position := none, value := foodPoints, active := false, type := .normal,
    color := foodColor, size := foodSize, spawnTime := 0, specialFood := none }

/-- Food.resetToNormal. -/
def Food.resetToNormal (f : Food) : Food :=
  { f with type := .normal, value := foodPoints, color := foodColor,
           size := foodSize, specialFood := none }

/-- Food.makeSpecial. -/
def Food.makeSpecial (f : Food) (t : FoodType) : Food :=
  match t with
  | .bonus => { f with type := .bonus, value := foodPoints * 2,
                       color := "#e74c3c", size := foodSize + 2 }
  | .mega => { f with type := .mega, value := foodPoints * 5,
                      color := "#9b59b6", size := foodSize + 4 }
  | .speed => { f with type := .speed, value := foodPoints,
                       color := "#3498db", size := foodSize,
                       specialFood := some ⟨5000⟩ }
  | .normal => f.resetToNormal

/-- Food.isEaten. -/
def Food.isEaten (f : Food) (head : Pos) : Bool :=
  match f.position with
  | none => false
  | some p => f.active && positionsEqual p head

/-- Food.consume: returns the point value and the deactivated food. -/
def Food.consume (f : Food) : Nat × Food :=
  if f.active then (f.value, { f with active := false, position := none })
  else (0, f)

/-- The state written by a successful placement attempt (position, active
and spawnTime assignment followed by resetToNormal). -/
def Food.placeAt (f : Food) (p : Pos) (now : Nat) : Food :=
  Food.resetToNormal { f with position := some p, active := true, spawnTime := now }

/-- Food.findAvailablePosition: deterministic row-major scan for the first
cell not occupied by the snake. -/
def Food.findAvailablePosition (cfg : Config) (f : Food) (sn : Snake) (now : Nat) :
    Bool × Food :=
  match (boardPositions cfg).find? (fun p => ! sn.isPositionOccupied p) with
  | some p => (true, f.placeAt p now)
  | none => (false, f)

/-- The random-attempt loop of Food.generateNewPosition: attempt index i,
remaining attempts rem; falls back to the exhaustive scan when attempts are
exhausted. -/
def Food.genLoop (cfg : Config) (f : Food) (sn : Snake) (rng : Nat → Nat × Nat)
    (now : Nat) : Nat → Nat → Bool × Food
  | _, 0 => Food.findAvailablePosition cfg f sn now
  | i, rem + 1 =>
    let p := getRandomPosition cfg (rng i)
    if sn.isPositionOccupied p then Food.genLoop cfg f sn rng now (i + 1) rem
    else (true, f.placeAt p now)

/-- Food.generateNewPosition: up to 100 random attempts, then the fallback
scan. -/
def Food.generateNewPosition (cfg : Config) (f : Food) (sn : Snake)
    (rng : Nat → Nat × Nat) (now : Nat) : Bool × Food :=
  Food.genLoop cfg f sn rng now 0 100

/-- Food.getAge (a zero spawnTime is falsy in the source). -/
def Food.getAge (f : Food) (now : Nat) : Nat :=
  if !f.active || f.spawnTime == 0 then 0 else now - f.spawnTime

/-- Food.hasExpired: special food older than 10000 ms. -/
def Food.hasExpired (f : Food) (now : Nat) : Bool :=
  if f.type = FoodType.normal then false else decide (10000 < f.getAge now)

/-- The oracle inputs of one tick: the random-position stream for placement,
the current wall-clock time, the Math.random() < specialChance roll of
Food.checkForSpecialFood, and the random index choosing the special type. -/
structure Env where
  rng : Nat → Nat × Nat
  now : Nat
  upgradeRoll : Bool
  pickIdx : Nat

/-- Food.checkForSpecialFood: only a normal food can upgrade; the probability
comparison is the upgradeRoll oracle and the uniform pick over
['bonus', 'mega', 'speed'] is pickIdx mod 3. -/
def Food.checkForSpecialFood (f : Food) (env : Env) : Bool × Food :=
  if f.type ≠ FoodType.normal then (false, f)
  else if env.upgradeRoll then
    (true, f.makeSpecial ([FoodType.bonus, FoodType.mega, FoodType.speed].getD
      (env.pickIdx % 3) FoodType.bonus))
  else (false, f)

/-- Food.update: expiry check then the special-upgrade check, on active food
only.  The currentScore argument only feeds the abstracted probability, so it
is not consumed here. -/
def Food.update (f : Food) (env : Env) : Food :=
  if !f.active then f
  else
    let f1 := if f.hasExpired env.now then f.resetToNormal else f
    (f1.checkForSpecialFood env).2

/-- CollisionDetector.checkBoundaryCollision result. -/
structure BoundaryCollision where
  detected : Bool
  side : Option String
deriving DecidableEq

/-- CollisionDetector.checkBoundaryCollision. -/
def checkBoundaryCollision (cfg : Config) (p : Pos) : BoundaryCollision :=
  if p.x < 0 then ⟨true, some "left"⟩
  else if (cfg.columns : Int) ≤ p.x then ⟨true, some "right"⟩
  else if p.y < 0 then ⟨true, some "top"⟩
  else if (cfg.rows : Int) ≤ p.y then ⟨true, some "bottom"⟩
  else ⟨false, none⟩

/-- CollisionDetector.checkFoodCollision result (points and specialEffect
are captured from the food before any consumption). -/
structure FoodCollision where
  detected : Bool
  points : Nat
  specialEffect : Option SpecialFood
deriving DecidableEq

/-- CollisionDetector.checkFoodCollision. -/
def checkFoodCollision (sn : Snake) (f : Food) : FoodCollision :=
  if f.active && f.isEaten sn.getHead then ⟨true, f.value, f.specialFood⟩
  else ⟨false, 0, none⟩

/-- CollisionDetector.checkAllCollisions result. -/
structure Collisions where
  boundary : BoundaryCollision
  selfDetected : Bool
  food : FoodCollision
  gameEnding : Bool
deriving DecidableEq

/-- CollisionDetector.checkAllCollisions: all three classifications computed
on the snake head, gameEnding when boundary or self collision. -/
def checkAllCollisions (cfg : Config) (sn : Snake) (f : Food) : Collisions :=
  let b := checkBoundaryCollision cfg sn.getHead
  let sc := sn.getBodyWithoutHead.any (fun seg => positionsEqual sn.getHead seg)
  let fc := checkFoodCollision sn f
  ⟨b, sc, fc, b.detected || sc⟩

/-- Session state (gameConfig.game.states). -/
inductive GState where
  | menu
  | playing
  | paused
  | gameOver
deriving DecidableEq

/-- The Game controller state.  Each entry of timers is the speed value a
pending setTimeout callback of handleSpecialEffect will restore. -/
structure Game where
  snake : Snake
  food : Food
  score : Nat
  highScore : Nat
  state : GState
  speed : Nat
  paused : Bool
  timers : List Nat
deriving DecidableEq

/-- Game.pause: only from PLAYING; otherwise a silent no-op. -/
def Game.pause (g : Game) : Game :=
  if g.state ≠ GState.playing then g
  else { g with state := GState.paused, paused := true }

/-- Game.resume: only from PAUSED; otherwise a silent no-op. -/
def Game.resume (g : Game) : Game :=
  if g.state ≠ GState.paused then g
  else { g with state := GState.playing, paused := false }

/-- Game.gameOver: transition to GAME_OVER and persist the high score
(storage.setHighScore followed by the this.highScore update). -/
def Game.doGameOver (g : Game) : Game :=
  { g with state := GState.gameOver,
           highScore := if g.highScore < g.score then g.score else g.highScore }

/-- Game.updateGameSpeed: speed recomputed from the score, 5 ms faster per
100 points, floored at 75. -/
def Game.updateGameSpeed (g : Game) : Game :=
  { g with speed := max 75 (snakeSpeed - g.score / 100 * 5) }

/-- The score-derived interval formula of Game.updateGameSpeed. -/
def gameSpeedFormula (score : Nat) : Nat :=
  max 75 (snakeSpeed - score / 100 * 5)

/-- Game.handleSpecialEffect on a speed effect: captures the current speed,
boosts to max(50, speed - 50), and schedules a timer restoring the captured
value. -/
def Game.handleSpecialEffect (g : Game) (_eff : SpecialFood) : Game :=
  { g with speed := max 50 (g.speed - 50), timers := g.timers ++ [g.speed] }

/-- The setTimeout callback scheduled by Game.handleSpecialEffect firing:
restores the captured speed of the i-th pending timer. -/
def Game.fireTimer (g : Game) (i : Nat) : Game :=
  match g.timers.get? i with
  | some v => { g with speed := v, timers := g.timers.eraseIdx i }
  | none => g

/-- Game.handleFoodCollision: consume, add points, request growth, re-place
the food, then apply the captured special effect if any. -/
def Game.handleFoodCollision (cfg : Config) (g : Game) (fc : FoodCollision)
    (env : Env) : Game :=
  let pf := g.food.consume
  let sn := g.snake.grow
  let nf := (Food.generateNewPosition cfg pf.2 sn env.rng env.now).2
  let g1 := { g with food := nf, score := g.score + pf.1, snake := sn }
  match fc.specialEffect with
  | some eff => g1.handleSpecialEffect eff
  | none => g1

/-- Game.update: one simulation tick.  Move, classify all collisions, handle
a food collision, then either transition to game over on a lethal collision
or run the food update and the speed update. -/
def Game.update (cfg : Config) (g : Game) (env : Env) : Game :=
  if g.state ≠ GState.playing ∨ g.paused then g
  else
    let sn := g.snake.move
    let col := checkAllCollisions cfg sn g.food
    let g1 := { g with snake := sn }
    let g2 := if col.food.detected then g1.handleFoodCollision cfg col.food env else g1
    if col.gameEnding then g2.doGameOver
    else
      let g3 := { g2 with food := g2.food.update env }
      g3.updateGameSpeed

/-- Snake states reachable from the initial state through the entity's
public operations (direction changes, growth requests and moves, the calls
the Game controller makes). -/
inductive SnakeReach (cfg : Config) : Snake → Prop where
  | init : SnakeReach cfg (Snake.init cfg)
  | chDir (s : Snake) (d : Direction) :
      SnakeReach cfg s → SnakeReach cfg (s.changeDirection d).2
  | growR (s : Snake) : SnakeReach cfg s → SnakeReach cfg s.grow
  | moveR (s : Snake) : SnakeReach cfg s → SnakeReach cfg s.move

/-- Snake states reachable along runs in which no completed move has
produced a self collision: the controller transitions to GameOver and stops
ticking on the move that does, so these are the states of a live session. -/
inductive SnakeReachAlive (cfg : Config) : Snake → Prop where
  | init : SnakeReachAlive cfg (Snake.init cfg)
  | chDir (s : Snake) (d : Direction) :
      SnakeReachAlive cfg s → SnakeReachAlive cfg (s.changeDirection d).2
  | growR (s : Snake) : SnakeReachAlive cfg s → SnakeReachAlive cfg s.grow
  | moveR (s : Snake) : SnakeReachAlive cfg s →
      s.move.checkSelfCollision = false → SnakeReachAlive cfg s.move

/-- A menu-state game used to witness the pause/resume no-op behavior. -/
def menuGame : Game :=
  { snake := Snake.init gameConfig, food := Food.init, score := 0, highScore := 0,
    state := GState.menu, speed := snakeSpeed, paused := false, timers := [] }

/-- A playing game one move away from a simultaneous food and self
collision: the head at (5,5) moving down lands on (5,6), which is both the
food position and a still-occupied body cell. -/
def c1Game : Game :=
  { snake := { body := [⟨5, 5⟩, ⟨6, 5⟩, ⟨6, 6⟩, ⟨5, 6⟩, ⟨4, 6⟩], direction := .down,
               nextDirection := .down, growing := false, length := 5 }
    food := { position := some ⟨5, 6⟩, value := 10, active := true, type := .normal,
              color := foodColor, size := 18, spawnTime := 1, specialFood := none }
    score := 50, highScore := 0, state := .playing, speed := 150,
    paused := false, timers := [] }

/-- Tick oracle for the C1 scenario: the first random placement attempt is
cell (0,0), which is free. -/
def c1Env : Env :=
  { rng := fun _ => (0, 0), now := 100, upgradeRoll := false, pickIdx := 0 }

/-- A playing game at score 95 one move away from eating a speed-boost food
at (16,15). -/
def c2Game : Game :=
  { snake := { body := [⟨15, 15⟩, ⟨14, 15⟩, ⟨13, 15⟩], direction := .right,
               nextDirection := .right, growing := false, length := 3 }
    food := { position := some ⟨16, 15⟩, value := 10, active := true, type := .speed,
              color := "#3498db", size := 18, spawnTime := 1,
              specialFood := some ⟨5000⟩ }
    score := 95, highScore := 0, state := .playing, speed := 150,
    paused := false, timers := [] }

/-- Tick oracle for the C2 scenario. -/
def c2Env : Env :=
  { rng := fun _ => (0, 0), now := 100, upgradeRoll := false, pickIdx := 0 }

/-- A one-segment snake on a 2 by 2 board, leaving free cells for
placement. -/
def c6Snake : Snake :=
  { body := [⟨0, 0⟩], direction := .right, nextDirection := .right,
    growing := false, length := 1 }

/-- A snake occupying every cell of a 2 by 2 board. -/
def c6FullSnake : Snake :=
  { body := [⟨0, 0⟩, ⟨1, 0⟩, ⟨0, 1⟩, ⟨1, 1⟩], direction := .right,
    nextDirection := .right, growing := false, length := 4 }

/-- Random stream for the C6 witness. -/
def c6Rng : Nat → Nat × Nat := fun _ => (1, 1)

/-- Random stream for the C10 witness. -/
def c10Rng : Nat → Nat × Nat := fun _ => (0, 0)

/-! ## Helper lemmas -/

/-- positionsEqual is structural equality of positions. -/
theorem positionsEqual_iff {p q : Pos} : positionsEqual p q = true ↔ p = q := by
  cases p with
  | mk px py =>
    cases q with
    | mk qx qy => simp [positionsEqual, Pos.mk.injEq]

/-- Growing twice is the same as growing once. -/
theorem grow_grow (s : Snake) : s.grow.grow = s.grow := rfl

/-- Any positive number of grow calls equals one grow call. -/
theorem grow_iterate (n : Nat) (s : Snake) : Snake.grow^[n + 1] s = s.grow := by
  induction n generalizing s with
  | zero => rfl
  | succ m ih =>
    rw [Function.iterate_succ_apply, ih s.grow, grow_grow]

/-! ## Claims -/

/-- Claim C4: changeDirection fails and leaves the snake unchanged exactly
when the requested direction is the opposite of the currently applied
direction; otherwise it succeeds and stores the request as the pending
direction, and a later successful call overwrites the earlier pending one. -/
theorem c4_changeDirection (s : Snake) (d d2 : Direction) :
    ((s.changeDirection d).1 = false ↔ areDirectionsOpposite d s.direction = true) ∧
    (areDirectionsOpposite d s.direction = true → (s.changeDirection d).2 = s) ∧
    (areDirectionsOpposite d s.direction = false →
      (s.changeDirection d).1 = true ∧
      (s.changeDirection d).2 = { s with nextDirection := d }) ∧
    (areDirectionsOpposite d s.direction = false →
      areDirectionsOpposite d2 s.direction = false →
      (((s.changeDirection d).2).changeDirection d2).2.nextDirection = d2) := by
  cases hb : areDirectionsOpposite d s.direction with
  | true =>
    refine ⟨by simp [Snake.changeDirection, hb], fun _ => by simp [Snake.changeDirection, hb],
      fun hf => by simp at hf, fun hf => by simp at hf⟩
  | false =>
    refine ⟨by simp [Snake.changeDirection, hb], fun ht => by simp at ht,
      fun _ => by simp [Snake.changeDirection, hb], fun _ h2 => ?_⟩
    simp [Snake.changeDirection, hb, h2]

/-- Claim C4 witness: a reversal request on the initial snake (moving right)
is rejected unchanged. -/
theorem c4_witness :
    areDirectionsOpposite Direction.left (Snake.init gameConfig).direction = true ∧
    ((Snake.init gameConfig).changeDirection Direction.left).2 = Snake.init gameConfig :=
  ⟨by decide, (c4_changeDirection (Snake.init gameConfig) Direction.left Direction.up).2.1
    (by decide)⟩

/-- Claim C5: a move applies the pending direction, the new head is the old
head displaced by exactly one unit step in that direction, and the body
length changes by 0 without pending growth and by exactly 1 with it. -/
theorem c5_move (s : Snake) (h : s.body ≠ []) :
    s.move.direction = s.nextDirection ∧
    s.move.getHead = ⟨s.getHead.x + s.nextDirection.dx, s.getHead.y + s.nextDirection.dy⟩ ∧
    (s.growing = false → s.move.body.length = s.body.length) ∧
    (s.growing = true → s.move.body.length = s.body.length + 1) := by
  obtain ⟨body, dir, nd, gr, len⟩ := s
  cases body with
  | nil => simp at h
  | cons b bs =>
    cases gr with
    | false => simp [Snake.move, Snake.getHead]
    | true => simp [Snake.move, Snake.getHead]

/-- Claim C5 witness: one move of the initial snake. -/
theorem c5_witness :
    (Snake.init gameConfig).body ≠ [] ∧
    (Snake.init gameConfig).move.getHead =
      ⟨(Snake.init gameConfig).getHead.x + (Snake.init gameConfig).nextDirection.dx,
       (Snake.init gameConfig).getHead.y + (Snake.init gameConfig).nextDirection.dy⟩ :=
  ⟨by decide, (c5_move (Snake.init gameConfig) (by decide)).2.1⟩

/-- Claim C7: requesting growth two or more times before a single move is
the same as requesting it once, and that move grows the body by exactly 1. -/
theorem c7_grow (s : Snake) (n : Nat) (h : 2 ≤ n) :
    Snake.grow^[n] s = s.grow ∧
    (Snake.grow^[n] s).move.body.length = s.body.length + 1 := by
  obtain ⟨m, rfl⟩ : ∃ m, n = m + 1 := ⟨n - 1, by omega⟩
  refine ⟨grow_iterate m s, ?_⟩
  rw [grow_iterate m s]
  simp [Snake.move, Snake.grow]

/-- Claim C7 witness: three growth requests on the initial snake grow it by
exactly one segment over the next move. -/
theorem c7_witness :
    2 ≤ 3 ∧
    (Snake.grow^[3] (Snake.init gameConfig)).move.body.length =
      (Snake.init gameConfig).body.length + 1 :=
  ⟨by decide, (c7_grow (Snake.init gameConfig) 3 (by decide)).2⟩

/-- Claim C8: the boundary classifier detects a collision exactly when the
position lies outside the half-open board box; in particular x = columns
(with y in range) is detected and x = columns - 1 is not. -/
theorem c8_boundary (cfg : Config) (p : Pos) (y : Int)
    (hy0 : 0 ≤ y) (hy : y < (cfg.rows : Int)) (hc : 1 ≤ cfg.columns) :
    ((checkBoundaryCollision cfg p).detected = true ↔
      ¬ (0 ≤ p.x ∧ p.x < (cfg.columns : Int) ∧ 0 ≤ p.y ∧ p.y < (cfg.rows : Int))) ∧
    (checkBoundaryCollision cfg ⟨(cfg.columns : Int), y⟩).detected = true ∧
    (checkBoundaryCollision cfg ⟨(cfg.columns : Int) - 1, y⟩).detected = false := by
  have hc1 : (1 : Int) ≤ (cfg.columns : Int) := by exact_mod_cast hc
  refine ⟨?_, ?_, ?_⟩ <;> unfold checkBoundaryCollision <;> split_ifs <;>
    simp_all <;> omega

/-- Claim C8 witness: on the 30-column board, x = 30 is a boundary collision
and x = 29 is not. -/
theorem c8_witness :
    (0 : Int) ≤ 5 ∧ (5 : Int) < (gameConfig.rows : Int) ∧ 1 ≤ gameConfig.columns ∧
    (checkBoundaryCollision gameConfig ⟨(gameConfig.columns : Int), 5⟩).detected = true ∧
    (checkBoundaryCollision gameConfig ⟨(gameConfig.columns : Int) - 1, 5⟩).detected = false :=
  ⟨by decide, by decide, by decide,
    (c8_boundary gameConfig ⟨0, 0⟩ 5 (by decide) (by decide) (by decide)).2.1,
    (c8_boundary gameConfig ⟨0, 0⟩ 5 (by decide) (by decide) (by decide)).2.2⟩

/-- Claim C9: pause from any state other than Playing and resume from any
state other than Paused leave the whole game state unchanged; the pair is
the only one these operations affect. -/
theorem c9_pause_resume (g : Game) :
    (g.state ≠ GState.playing → g.pause = g) ∧
    (g.state ≠ GState.paused → g.resume = g) ∧
    (g.state = GState.playing → g.pause = { g with state := GState.paused, paused := true }) ∧
    (g.state = GState.paused → g.resume = { g with state := GState.playing, paused := false }) := by
  refine ⟨fun h => ?_, fun h => ?_, fun h => ?_, fun h => ?_⟩ <;>
    simp [Game.pause, Game.resume, h]

/-- Claim C9 witness: pausing from the menu state is a no-op. -/
theorem c9_witness :
    menuGame.state ≠ GState.playing ∧ menuGame.pause = menuGame :=
  ⟨by decide, (c9_pause_resume menuGame).1 (by decide)⟩

/-- The initial body has pairwise distinct cells on any board. -/
theorem init_nodup (cfg : Config) : (Snake.init cfg).body.Nodup := by
  have hb : (Snake.init cfg).body =
      [⟨((cfg.columns / 2 : Nat) : Int) - ((0 : Nat) : Int), ((cfg.rows / 2 : Nat) : Int)⟩,
       ⟨((cfg.columns / 2 : Nat) : Int) - ((1 : Nat) : Int), ((cfg.rows / 2 : Nat) : Int)⟩,
       ⟨((cfg.columns / 2 : Nat) : Int) - ((2 : Nat) : Int), ((cfg.rows / 2 : Nat) : Int)⟩] := rfl
  rw [hb]
  simp [List.nodup_cons, Pos.mk.injEq]
  omega

/-- Consing a head that occurs nowhere in a duplicate-free list keeps the
list duplicate-free. -/
theorem nodup_cons_of_not_any (nh : Pos) (l : List Pos) (hnd : l.Nodup)
    (h : l.any (fun seg => positionsEqual nh seg) = false) : (nh :: l).Nodup := by
  rw [List.nodup_cons]
  refine ⟨fun hmem => ?_, hnd⟩
  have hall := List.any_eq_false.mp h
  have := hall nh hmem
  simp [positionsEqual] at this

/-- A completed move that detects no self collision preserves freedom from
duplicate body cells. -/
theorem move_nodup (s : Snake) (hnd : s.body.Nodup)
    (hcol : s.move.checkSelfCollision = false) : s.move.body.Nodup := by
  obtain ⟨body, dir, nd, gr, len⟩ := s
  cases gr with
  | true =>
    simp only [Snake.move, Snake.checkSelfCollision, Snake.getHead, if_pos,
      List.headD_cons, List.drop_succ_cons, List.drop_zero] at hcol ⊢
    exact nodup_cons_of_not_any _ _ hnd hcol
  | false =>
    cases body with
    | nil => simp [Snake.move]
    | cons b bs =>
      simp only [Snake.move, Snake.checkSelfCollision, Snake.getHead,
        Bool.false_eq_true, if_neg, List.dropLast_cons₂, List.headD_cons,
        List.drop_succ_cons, List.drop_zero] at hcol ⊢
      exact nodup_cons_of_not_any _ _
        ((List.dropLast_sublist (b :: bs)).nodup hnd) hcol

/-- Claim C3 counterexample: a state reachable through the actor's public
operations (two growth-and-move steps then an up-left-down turn) whose
completed move leaves a duplicated cell in the body — the very move on
which the self collision is detected stores the duplicated head. -/
theorem c3_counterexample :
    ∃ s, SnakeReach gameConfig s ∧ ¬ s.body.Nodup := by
  have h0 : SnakeReach gameConfig (Snake.init gameConfig) := SnakeReach.init
  have h1 := SnakeReach.growR _ h0
  have h2 := SnakeReach.moveR _ h1
  have h3 := SnakeReach.growR _ h2
  have h4 := SnakeReach.moveR _ h3
  have h5 := SnakeReach.chDir _ Direction.up h4
  have h6 := SnakeReach.moveR _ h5
  have h7 := SnakeReach.chDir _ Direction.left h6
  have h8 := SnakeReach.moveR _ h7
  have h9 := SnakeReach.chDir _ Direction.down h8
  have h10 := SnakeReach.moveR _ h9
  exact ⟨_, h10, by decide⟩

/-- Claim C3 amended: after every completed move that does not produce a
self collision (the only moves after which the session keeps playing) the
body has no duplicate cells. -/
theorem c3_amended (cfg : Config) (s : Snake) (h : SnakeReachAlive cfg s) :
    s.body.Nodup := by
  induction h with
  | init => exact init_nodup cfg
  | chDir s d hs ih =>
    have hb : ((s.changeDirection d).2).body = s.body := by
      simp only [Snake.changeDirection]
      split <;> rfl
    rw [hb]
    exact ih
  | growR s hs ih => exact ih
  | moveR s hs hcol ih => exact move_nodup s ih hcol

/-- Claim C3 witness: the first move of a fresh session detects no self
collision and leaves a duplicate-free body. -/
theorem c3_witness :
    (Snake.init gameConfig).move.checkSelfCollision = false ∧
    (Snake.init gameConfig).move.body.Nodup :=
  ⟨by decide, c3_amended gameConfig _
    (SnakeReachAlive.moveR _ SnakeReachAlive.init (by decide))⟩

/-- A position built from in-range loop counters lies on the board. -/
theorem natPos_mem (cfg : Config) (a b : Nat) (ha : a < cfg.columns)
    (hb : b < cfg.rows) : natPos a b ∈ boardPositions cfg := by
  unfold boardPositions
  exact List.mem_flatMap.mpr
    ⟨b, List.mem_range.mpr hb, List.mem_map.mpr ⟨a, List.mem_range.mpr ha, rfl⟩⟩

/-- A random attempt position lies on the board whenever the board has
positive size. -/
theorem getRandomPosition_mem (cfg : Config) (r : Nat × Nat)
    (hc : 0 < cfg.columns) (hr : 0 < cfg.rows) :
    getRandomPosition cfg r ∈ boardPositions cfg :=
  natPos_mem cfg _ _ (Nat.mod_lt _ hc) (Nat.mod_lt _ hr)

/-- Shape of a successful placement run: the returned food is the input
food re-placed at some cell not occupied by the snake; the cell is a board
cell whenever the board has positive size. -/
theorem genLoop_success (cfg : Config) (f : Food) (sn : Snake)
    (rng : Nat → Nat × Nat) (now : Nat) :
    ∀ rem i, (Food.genLoop cfg f sn rng now i rem).1 = true →
      ∃ q, Food.genLoop cfg f sn rng now i rem = (true, f.placeAt q now) ∧
        sn.isPositionOccupied q = false ∧
        (0 < cfg.columns → 0 < cfg.rows → q ∈ boardPositions cfg) := by
  intro rem
  induction rem with
  | zero =>
    intro i h
    simp only [Food.genLoop, Food.findAvailablePosition] at h ⊢
    cases hfind : (boardPositions cfg).find? (fun p => ! sn.isPositionOccupied p) with
    | none => rw [hfind] at h; simp at h
    | some q =>
      refine ⟨q, rfl, ?_, fun _ _ => List.mem_of_find?_eq_some hfind⟩
      have hq := List.find?_some hfind
      simpa using hq
  | succ m ih =>
    intro i h
    simp only [Food.genLoop] at h ⊢
    by_cases hocc : sn.isPositionOccupied (getRandomPosition cfg (rng i)) = true
    · rw [if_pos hocc] at h ⊢
      exact ih (i + 1) h
    · rw [if_neg hocc] at h ⊢
      exact ⟨getRandomPosition cfg (rng i), rfl, by simpa using hocc,
        fun hc hr => getRandomPosition_mem cfg (rng i) hc hr⟩

/-- Whenever some board cell is free, every placement run succeeds. -/
theorem genLoop_complete (cfg : Config) (f : Food) (sn : Snake)
    (rng : Nat → Nat × Nat) (now : Nat)
    (hfree : ∃ q ∈ boardPositions cfg, sn.isPositionOccupied q = false) :
    ∀ rem i, (Food.genLoop cfg f sn rng now i rem).1 = true := by
  intro rem
  induction rem with
  | zero =>
    intro i
    simp only [Food.genLoop, Food.findAvailablePosition]
    cases hfind : (boardPositions cfg).find? (fun p => ! sn.isPositionOccupied p) with
    | none =>
      obtain ⟨q, hmem, hq⟩ := hfree
      have := List.find?_eq_none.mp hfind q hmem
      simp [hq] at this
    | some q => rfl
  | succ m ih =>
    intro i
    simp only [Food.genLoop]
    by_cases hocc : sn.isPositionOccupied (getRandomPosition cfg (rng i)) = true
    · rw [if_pos hocc]
      exact ih (i + 1)
    · rw [if_neg hocc]

/-- When every board cell is occupied, every placement run fails and leaves
the food record untouched. -/
theorem genLoop_occupied (cfg : Config) (f : Food) (sn : Snake)
    (rng : Nat → Nat × Nat) (now : Nat)
    (hc : 0 < cfg.columns) (hr : 0 < cfg.rows)
    (hall : ∀ q ∈ boardPositions cfg, sn.isPositionOccupied q = true) :
    ∀ rem i, Food.genLoop cfg f sn rng now i rem = (false, f) := by
  intro rem
  induction rem with
  | zero =>
    intro i
    simp only [Food.genLoop, Food.findAvailablePosition]
    have hfind : (boardPositions cfg).find? (fun p => ! sn.isPositionOccupied p) = none := by
      rw [List.find?_eq_none]
      intro q hmem
      simp [hall q hmem]
    rw [hfind]
  | succ m ih =>
    intro i
    simp only [Food.genLoop]
    rw [if_pos (by rw [hall _ (getRandomPosition_mem cfg (rng i) hc hr)])]
    exact ih (i + 1)

/-- Claim C6: placement uses bounded random attempts and then the
exhaustive row-major fallback scan, so whenever at least one free board
cell exists it succeeds and activates the item at a board cell not occupied
by the snake; when every board cell is occupied it returns failure and
leaves the food record untouched (so an inactive item stays inactive), and
no exception path exists. -/
theorem c6_placement (cfg : Config) (f : Food) (sn : Snake)
    (rng : Nat → Nat × Nat) (now : Nat)
    (hc : 0 < cfg.columns) (hr : 0 < cfg.rows) :
    ((∃ q ∈ boardPositions cfg, sn.isPositionOccupied q = false) →
      (Food.generateNewPosition cfg f sn rng now).1 = true ∧
      (Food.generateNewPosition cfg f sn rng now).2.active = true ∧
      ∃ q, (Food.generateNewPosition cfg f sn rng now).2.position = some q ∧
        q ∈ boardPositions cfg ∧ sn.isPositionOccupied q = false) ∧
    ((∀ q ∈ boardPositions cfg, sn.isPositionOccupied q = true) →
      Food.generateNewPosition cfg f sn rng now = (false, f)) := by
  constructor
  · intro hfree
    have hsucc : (Food.genLoop cfg f sn rng now 0 100).1 = true :=
      genLoop_complete cfg f sn rng now hfree 100 0
    obtain ⟨q, heq, hq, hmem⟩ := genLoop_success cfg f sn rng now 100 0 hsucc
    have h2 : (Food.generateNewPosition cfg f sn rng now).2 = f.placeAt q now := by
      unfold Food.generateNewPosition
      rw [heq]
    refine ⟨hsucc, ?_, q, ?_, hmem hc hr, hq⟩
    · rw [h2]
      rfl
    · rw [h2]
      rfl
  · intro hall
    exact genLoop_occupied cfg f sn rng now hc hr hall 100 0

/-- Claim C6 witness: on a 2 by 2 board, placement succeeds for a
one-segment snake and fails gracefully for a snake occupying all cells. -/
theorem c6_witness :
    (∃ q ∈ boardPositions ⟨2, 2⟩, c6Snake.isPositionOccupied q = false) ∧
    (Food.generateNewPosition ⟨2, 2⟩ Food.init c6Snake c6Rng 5).1 = true ∧
    (∀ q ∈ boardPositions ⟨2, 2⟩, c6FullSnake.isPositionOccupied q = true) ∧
    Food.generateNewPosition ⟨2, 2⟩ Food.init c6FullSnake c6Rng 5 = (false, Food.init) := by
  refine ⟨by decide, ?_, by decide, ?_⟩
  · exact ((c6_placement ⟨2, 2⟩ Food.init c6Snake c6Rng 5 (by decide) (by decide)).1
      (by decide)).1
  · exact (c6_placement ⟨2, 2⟩ Food.init c6FullSnake c6Rng 5 (by decide) (by decide)).2
      (by decide)

/-- Claim C10: every successful placement resets the item to the normal
variant with base value, color and size and no special effect, active at
its new cell; and the per-tick food update can only produce a non-normal
variant when the upgrade roll fired or the food already was non-normal. -/
theorem c10_spawn (cfg : Config) (f : Food) (sn : Snake) (rng : Nat → Nat × Nat)
    (now : Nat) (h : (Food.generateNewPosition cfg f sn rng now).1 = true) :
    ((Food.generateNewPosition cfg f sn rng now).2.type = FoodType.normal ∧
     (Food.generateNewPosition cfg f sn rng now).2.value = foodPoints ∧
     (Food.generateNewPosition cfg f sn rng now).2.color = foodColor ∧
     (Food.generateNewPosition cfg f sn rng now).2.size = foodSize ∧
     (Food.generateNewPosition cfg f sn rng now).2.specialFood = none ∧
     (Food.generateNewPosition cfg f sn rng now).2.active = true) ∧
    (∀ (f2 : Food) (env : Env), (Food.update f2 env).type ≠ FoodType.normal →
      env.upgradeRoll = true ∨ f2.type ≠ FoodType.normal) := by
  constructor
  · obtain ⟨q, heq, hq, hmem⟩ := genLoop_success cfg f sn rng now 100 0 h
    have h2 : (Food.generateNewPosition cfg f sn rng now).2 = f.placeAt q now := by
      unfold Food.generateNewPosition
      rw [heq]
    rw [h2]
    exact ⟨rfl, rfl, rfl, rfl, rfl, rfl⟩
  · intro f2 env hne
    by_cases hroll : env.upgradeRoll = true
    · exact Or.inl hroll
    · right
      intro hnorm
      refine hne ?_
      cases hact : f2.active with
      | false => simp [Food.update, hact, hnorm]
      | true =>
        simp [Food.update, Food.hasExpired, Food.checkForSpecialFood, hact, hnorm, hroll]

/-- Claim C10 witness: a successful placement on the fresh session yields a
normal-variant item. -/
theorem c10_witness :
    (Food.generateNewPosition gameConfig Food.init (Snake.init gameConfig) c10Rng 5).1
      = true ∧
    (Food.generateNewPosition gameConfig Food.init (Snake.init gameConfig) c10Rng 5).2.type
      = FoodType.normal :=
  ⟨by decide, (c10_spawn gameConfig Food.init (Snake.init gameConfig) c10Rng 5
    (by decide)).1.1⟩

/-- Claim C1 counterexample: a playing state whose tick produces both a
food collision and a self collision; the controller does transition to
GameOver, but the score grows by the item's value during that tick, so no
points being awarded on a lethal step is false of the code. -/
theorem c1_counterexample :
    (checkAllCollisions gameConfig c1Game.snake.move c1Game.food).food.detected = true ∧
    (checkAllCollisions gameConfig c1Game.snake.move c1Game.food).gameEnding = true ∧
    (Game.update gameConfig c1Game c1Env).state = GState.gameOver ∧
    c1Game.score = 50 ∧
    (Game.update gameConfig c1Game c1Env).score = 60 :=
  ⟨by decide, by decide, by decide, by decide, by decide⟩

/-- Claim C1 amended: on a tick with both an item collision and a lethal
collision the controller transitions to GameOver, but the item is consumed
first and its point value is added to the score (the food handler runs
before the game-ending check). -/
theorem c1_amended (cfg : Config) (g : Game) (env : Env)
    (hs : g.state = GState.playing) (hp : g.paused = false)
    (hfood : (checkAllCollisions cfg g.snake.move g.food).food.detected = true)
    (hend : (checkAllCollisions cfg g.snake.move g.food).gameEnding = true) :
    (Game.update cfg g env).state = GState.gameOver ∧
    (Game.update cfg g env).score = g.score + g.food.value := by
  have hact : g.food.active = true := by
    by_contra hbc
    have hfa : g.food.active = false := by
      revert hbc
      cases g.food.active <;> simp
    simp [checkAllCollisions, checkFoodCollision, hfa] at hfood
  unfold Game.update
  rw [if_neg (by simp [hs, hp])]
  simp only [hfood, hend, if_pos]
  unfold Game.handleFoodCollision
  cases hsp : (checkAllCollisions cfg g.snake.move g.food).food.specialEffect with
  | none => simp [Game.doGameOver, Food.consume, hact]
  | some eff =>
    simp [Game.doGameOver, Game.handleSpecialEffect, Food.consume, hact]

/-- Claim C1 witness: the amended statement evaluated on the concrete
simultaneous-collision state. -/
theorem c1_witness :
    c1Game.state = GState.playing ∧
    (Game.update gameConfig c1Game c1Env).state = GState.gameOver ∧
    (Game.update gameConfig c1Game c1Env).score = c1Game.score + c1Game.food.value :=
  ⟨by decide,
    (c1_amended gameConfig c1Game c1Env (by decide) (by decide) (by decide) (by decide)).1,
    (c1_amended gameConfig c1Game c1Env (by decide) (by decide) (by decide) (by decide)).2⟩

/-- Claim C2 counterexample: eating the speed-boost food at score 95 leaves
score 105 and a pending timer that captured the pre-boost interval 150;
when the timer fires, the interval becomes 150, while the score-derived
formula gives 145 — reversion does not go to the formula value. -/
theorem c2_counterexample :
    (Game.update gameConfig c2Game c2Env).timers = [150] ∧
    (Game.update gameConfig c2Game c2Env).speed = 145 ∧
    (Game.fireTimer (Game.update gameConfig c2Game c2Env) 0).speed = 150 ∧
    gameSpeedFormula (Game.fireTimer (Game.update gameConfig c2Game c2Env) 0).score = 145 ∧
    (Game.fireTimer (Game.update gameConfig c2Game c2Env) 0).speed ≠
      gameSpeedFormula (Game.fireTimer (Game.update gameConfig c2Game c2Env) 0).score :=
  ⟨by decide, by decide, by decide, by decide, by decide⟩

/-- Claim C2 amended: consuming a speed-boost item drops the interval to
max(50, current - 50) and schedules a timer whose firing restores the
interval captured at consumption time (not the score-derived value); the
score-derived value is re-established by the per-tick speed update, which
ends every completed non-lethal tick, including the consuming one. -/
theorem c2_amended (g : Game) (i : Nat) (v : Nat) (hv : g.timers.get? i = some v) :
    (g.fireTimer i).speed = v ∧
    (∀ (g2 : Game) (eff : SpecialFood),
      (g2.handleSpecialEffect eff).speed = max 50 (g2.speed - 50) ∧
      (g2.handleSpecialEffect eff).timers = g2.timers ++ [g2.speed]) ∧
    (∀ (cfg : Config) (g3 : Game) (env : Env), g3.state = GState.playing →
      g3.paused = false →
      (checkAllCollisions cfg g3.snake.move g3.food).gameEnding = false →
      (Game.update cfg g3 env).speed = gameSpeedFormula (Game.update cfg g3 env).score) := by
  refine ⟨?_, fun g2 eff => ⟨rfl, rfl⟩, fun cfg g3 env hs hp hend => ?_⟩
  · unfold Game.fireTimer
    rw [hv]
  · unfold Game.update
    rw [if_neg (by simp [hs, hp])]
    cases hfd : (checkAllCollisions cfg g3.snake.move g3.food).food.detected with
    | true => simp [hfd, hend, Game.updateGameSpeed, gameSpeedFormula]
    | false => simp [hfd, hend, Game.updateGameSpeed, gameSpeedFormula]

/-- Claim C2 witness: firing the timer scheduled by the concrete
speed-boost tick restores the captured interval 150. -/
theorem c2_witness :
    (Game.update gameConfig c2Game c2Env).timers.get? 0 = some 150 ∧
    (Game.fireTimer (Game.update gameConfig c2Game c2Env) 0).speed = 150 :=
  ⟨by decide, (c2_amended (Game.update gameConfig c2Game c2Env) 0 150 (by decide)).1⟩
